import Mathlib

/-!
Verification development for the `server.js` MCP server (tools `answer`,
`search`, `fetch` backed by a single upstream QA API).

The embedding follows the source:
- `b64enc` / `b64dec` model the stateless reference codec
  `Buffer.from(s, "utf8").toString("base64url")` and
  `Buffer.from(s, "base64url").toString("utf8")`.  Node's base64 decoder is
  lenient: characters outside the base64/base64url alphabet (including `=`
  padding) are skipped, a dangling final sextet is dropped, and the decode
  never fails.  Node's UTF-8 decoder is likewise total: invalid byte
  sequences decode to replacement characters.  The replacement granularity
  here (one U+FFFD per offending lead byte) approximates Node's; every
  claim only depends on totality, not on the exact garbage produced.
- `askPerplexity` models the gateway function of the same name; the
  upstream HTTP exchange is abstracted as an `UpstreamResponse` input, and
  the outbound request(s) issued are returned explicitly so that
  "no network call" / "exactly one call" facts are statable.
- `answerTool` / `searchTool` / `fetchTool` model the three registered tool
  handlers; a thrown JS error inside a handler is modelled as an `errored`
  outcome (the MCP SDK converts handler throws into tool-level error
  results rather than crashing the process).
- `validateAnswer` / `validateSearch` / `validateFetch` model the zod
  input schemas (`z.string()`, `z.enum([...]).optional()`,
  `z.number().int().positive().optional()`).
-/

/-! ## UTF-8 codec (models Node's Buffer utf8 encode/decode) -/

/-- UTF-8 encoding of a single Unicode scalar value, as a list of bytes. -/
def utf8EncodeChar (n : Nat) : List Nat :=
  if n < 0x80 then [n]
  else if n < 0x800 then [0xC0 + n / 64, 0x80 + n % 64]
  else if n < 0x10000 then [0xE0 + n / 4096, 0x80 + n / 64 % 64, 0x80 + n % 64]
  else [0xF0 + n / 262144, 0x80 + n / 4096 % 64, 0x80 + n / 64 % 64, 0x80 + n % 64]

/-- UTF-8 encoding of a character sequence (`Buffer.from(s, "utf8")`). -/
def utf8Encode : List Char → List Nat
  | [] => []
  | c :: cs => utf8EncodeChar c.toNat ++ utf8Encode cs

/-- One pass of total UTF-8 decoding, structured on a fuel argument so that
the reconsume-on-error branches (which do not shorten the list by the whole
lookahead) remain a structural recursion.  The fuel only needs to dominate
the list length; `utf8Decode` instantiates it with the length itself. -/
def utf8DecodeAux : Nat → List Nat → List Char
  | 0, _ => []
  | _ + 1, [] => []
  | fuel + 1, b1 :: rest =>
    if b1 < 0x80 then Char.ofNat b1 :: utf8DecodeAux fuel rest
    else if 0xC2 ≤ b1 ∧ b1 ≤ 0xDF then
      match rest with
      | b2 :: rest2 =>
        if 0x80 ≤ b2 ∧ b2 ≤ 0xBF then
          Char.ofNat ((b1 - 0xC0) * 64 + (b2 - 0x80)) :: utf8DecodeAux fuel rest2
        else Char.ofNat 0xFFFD :: utf8DecodeAux fuel rest
      | [] => [Char.ofNat 0xFFFD]
    else if 0xE0 ≤ b1 ∧ b1 ≤ 0xEF then
      match rest with
      | b2 :: b3 :: rest3 =>
        if (0x80 ≤ b2 ∧ b2 ≤ 0xBF ∧ 0x80 ≤ b3 ∧ b3 ≤ 0xBF) ∧
            ¬(b1 = 0xE0 ∧ b2 < 0xA0) ∧ ¬(b1 = 0xED ∧ 0xA0 ≤ b2) then
          Char.ofNat ((b1 - 0xE0) * 4096 + (b2 - 0x80) * 64 + (b3 - 0x80))
            :: utf8DecodeAux fuel rest3
        else Char.ofNat 0xFFFD :: utf8DecodeAux fuel rest
      | _ => Char.ofNat 0xFFFD :: utf8DecodeAux fuel rest
    else if 0xF0 ≤ b1 ∧ b1 ≤ 0xF4 then
      match rest with
      | b2 :: b3 :: b4 :: rest4 =>
        if (0x80 ≤ b2 ∧ b2 ≤ 0xBF ∧ 0x80 ≤ b3 ∧ b3 ≤ 0xBF ∧ 0x80 ≤ b4 ∧ b4 ≤ 0xBF) ∧
            ¬(b1 = 0xF0 ∧ b2 < 0x90) ∧ ¬(b1 = 0xF4 ∧ 0x90 ≤ b2) then
          Char.ofNat ((b1 - 0xF0) * 262144 + (b2 - 0x80) * 4096 + (b3 - 0x80) * 64 + (b4 - 0x80))
            :: utf8DecodeAux fuel rest4
        else Char.ofNat 0xFFFD :: utf8DecodeAux fuel rest
      | _ => Char.ofNat 0xFFFD :: utf8DecodeAux fuel rest
    else Char.ofNat 0xFFFD :: utf8DecodeAux fuel rest

/-- Total UTF-8 decoding (`buf.toString("utf8")`): valid sequences decode to
their scalar value, invalid bytes decode to U+FFFD replacement characters
and decoding continues; the decode never fails. -/
def utf8Decode (l : List Nat) : List Char :=
  utf8DecodeAux l.length l

/-! ## Base64url codec (`b64enc` / `b64dec` in server.js, lines 62-64) -/

/-- The base64url alphabet character for a sextet value (0..63). -/
def charOfSextet (s : Nat) : Char :=
  if s < 26 then Char.ofNat (65 + s)
  else if s < 52 then Char.ofNat (71 + s)
  else if s < 62 then Char.ofNat (s - 4)
  else if s = 62 then Char.ofNat 45
  else Char.ofNat 95

/-- Sextet value of a character, if it belongs to the base64 / base64url
alphabet (Node's lenient decoder accepts both variants); `none` for every
other character, which the decoder then skips. -/
def sextetOfChar (c : Char) : Option Nat :=
  if 65 ≤ c.toNat ∧ c.toNat ≤ 90 then some (c.toNat - 65)
  else if 97 ≤ c.toNat ∧ c.toNat ≤ 122 then some (c.toNat - 71)
  else if 48 ≤ c.toNat ∧ c.toNat ≤ 57 then some (c.toNat + 4)
  else if c.toNat = 45 ∨ c.toNat = 43 then some 62
  else if c.toNat = 95 ∨ c.toNat = 47 then some 63
  else none

/-- Keep the sextets of the alphabet characters, silently skipping every
other character (Node's lenient base64 decoding). -/
def sextetsOfChars : List Char → List Nat
  | [] => []
  | c :: cs =>
    match sextetOfChar c with
    | some s => s :: sextetsOfChars cs
    | none => sextetsOfChars cs

/-- Bytes to sextets, unpadded (base64url encoding). -/
def bytesToSextets : List Nat → List Nat
  | b1 :: b2 :: b3 :: rest =>
    b1 / 4 :: ((b1 % 4) * 16 + b2 / 16) :: ((b2 % 16) * 4 + b3 / 64) :: (b3 % 64)
      :: bytesToSextets rest
  | [b1, b2] => [b1 / 4, (b1 % 4) * 16 + b2 / 16, (b2 % 16) * 4]
  | [b1] => [b1 / 4, (b1 % 4) * 16]
  | [] => []

/-- Sextets back to bytes; a dangling final sextet carries no complete byte
and is dropped (Node's behaviour). -/
def sextetsToBytes : List Nat → List Nat
  | s1 :: s2 :: s3 :: s4 :: rest =>
    (s1 * 4 + s2 / 16) :: ((s2 % 16) * 16 + s3 / 4) :: ((s3 % 4) * 64 + s4)
      :: sextetsToBytes rest
  | [s1, s2, s3] => [s1 * 4 + s2 / 16, (s2 % 16) * 16 + s3 / 4]
  | [s1, s2] => [s1 * 4 + s2 / 16]
  | [_] => []
  | [] => []

/-- `b64enc`: `Buffer.from(s, "utf8").toString("base64url")`. -/
def b64enc (q : String) : String :=
  ⟨(bytesToSextets (utf8Encode q.data)).map charOfSextet⟩

/-- `b64dec`: `Buffer.from(s, "base64url").toString("utf8")`.  Total:
non-alphabet characters are skipped and invalid UTF-8 is replaced, never
an exception. -/
def b64dec (s : String) : String :=
  ⟨utf8Decode (sextetsToBytes (sextetsOfChars s.data))⟩

/-! ## `encodeURIComponent` (used to synthesize result URLs) -/

/-- Characters `encodeURIComponent` leaves unescaped. -/
def isUriUnreserved (c : Char) : Bool :=
  (65 ≤ c.toNat && c.toNat ≤ 90) || (97 ≤ c.toNat && c.toNat ≤ 122) ||
  (48 ≤ c.toNat && c.toNat ≤ 57) ||
  c.toNat = 45 || c.toNat = 95 || c.toNat = 46 || c.toNat = 33 ||
  c.toNat = 126 || c.toNat = 42 || c.toNat = 39 || c.toNat = 40 || c.toNat = 41

/-- Uppercase hexadecimal digit. -/
def hexDigit (n : Nat) : Char :=
  if n < 10 then Char.ofNat (48 + n) else Char.ofNat (55 + n)

/-- Percent-escape of one byte. -/
def percentByte (b : Nat) : List Char :=
  [Char.ofNat 37, hexDigit (b / 16), hexDigit (b % 16)]

/-- Percent-escapes of the UTF-8 bytes of one scalar value. -/
def percentChar (n : Nat) : List Char :=
  match utf8EncodeChar n with
  | [] => []
  | b :: bs => percentByte b ++ (bs.map percentByte).flatten

/-- JS `encodeURIComponent`: unreserved characters pass through, all others
are replaced by the percent-escapes of their UTF-8 bytes. -/
def encodeURIComponent (s : String) : String :=
  ⟨(s.data.map fun c => if isUriUnreserved c then [c] else percentChar c.toNat).flatten⟩

/-- The synthesized result URL for a query (search and fetch handlers). -/
def searchUrl (q : String) : String :=
  "https://www.perplexity.ai/search?q=" ++ encodeURIComponent q

/-! ## Answer gateway (`askPerplexity`, server.js lines 16-60) -/

/-- The three values accepted by the `style` enum schema. -/
inductive Style where
  | short
  | medium
  | long
deriving DecidableEq

/-- The default system instruction (no length anchor). -/
def defaultSystem : String := "Answer helpfully and accurately."

/-- The word-target system instruction built when a target resolves. -/
def styledSystem (target : Nat) : String :=
  "You are a meticulous research assistant. Write around " ++ toString target ++
  " words if appropriate, but do NOT pad or fabricate when the question is simple. " ++
  "Prefer precision over verbosity."

/-- JS truthiness of the optional `minWords` number (`0` is falsy). -/
def minWordsTruthy : Option Nat → Bool
  | none => false
  | some n => n != 0

/-- Resolution of the system instruction in `askPerplexity`: the guard is
`if (style || minWords)`, the target is a ternary chain over `style` that
yields `undefined` when `style` is absent, and the styled instruction is
installed only `if (target)`. -/
def resolveSystem (style : Option Style) (minWords : Option Nat) : String :=
  if style.isSome || minWordsTruthy minWords then
    match style with
    | some .short => styledSystem (max 60 (minWords.getD 0))
    | some .medium => styledSystem (max 160 (minWords.getD 0))
    | some .long => styledSystem (max 300 (minWords.getD 0))
    | none => defaultSystem
  else defaultSystem

/-- The body of the outbound POST to the upstream QA endpoint.  The fixed
sampling temperature 0.3 is recorded in tenths to stay in `Nat`. -/
structure PplxRequest where
  model : String
  system : String
  user : String
  temperatureTenths : Nat
deriving DecidableEq

/-- Build the upstream request exactly as `askPerplexity` does. -/
def mkRequest (mdl sys q : String) : PplxRequest :=
  ⟨mdl, sys, q, 3⟩

/-- One entry of the upstream `choices` array; `none` models an absent (or
null) field reached through the `?.` chains. -/
structure Choice where
  messageContent : Option String
  textContent : Option String
deriving DecidableEq

/-- The parsed JSON payload of a successful upstream response; every field
is optional because the shape is only partially trusted. -/
structure PplxJson where
  choices : Option (List Choice)
  model : Option String
  usage : Option String
deriving DecidableEq

/-- The upstream HTTP exchange, abstracted: status flag and code, the
best-effort body text for error statuses (`none` models a body read that
itself failed), and the parsed JSON payload for success statuses. -/
structure UpstreamResponse where
  ok : Bool
  status : Nat
  bodyText : Option String
  json : PplxJson
deriving DecidableEq

/-- `json?.choices?.[0]?.message?.content ?? json?.choices?.[0]?.text ?? ""`. -/
def getFull (j : PplxJson) : String :=
  match j.choices with
  | none => ""
  | some cs =>
    match cs.head? with
    | none => ""
    | some c =>
      match c.messageContent with
      | some s => s
      | none =>
        match c.textContent with
        | some s => s
        | none => ""

/-- A successful-status payload that is malformed or empty as far as the
`?.` chains can see: `choices` missing, `choices` empty, or a first choice
with neither a `message.content` nor a `text` field. -/
def malformedPayload (j : PplxJson) : Bool :=
  match j.choices with
  | none => true
  | some cs =>
    match cs.head? with
    | none => true
    | some c => c.messageContent.isNone && c.textContent.isNone

/-- The `meta` object assembled from the upstream payload. -/
structure AskMeta where
  model : Option String
  usage : Option String
deriving DecidableEq

/-- Outcome of one `askPerplexity` call: the thrown configuration error,
the thrown upstream-status error (carrying status and best-effort body), or
the normalized `(full, meta)` success value. -/
inductive AskResult where
  | configError : String → AskResult
  | upstreamError : Nat → String → AskResult
  | success : String → AskMeta → AskResult
deriving DecidableEq

/-- JS truthiness of the credential (`if (!PPLX_API_KEY) throw ...`):
an absent or empty-string key is falsy. -/
def keyTruthy : Option String → Bool
  | none => false
  | some s => s != ""

/-- `askPerplexity(query, { style, minWords })`, with the upstream exchange
supplied as `resp` and the list of outbound requests actually issued
returned alongside the result (empty when the call fails before the
network, a single request otherwise: the call is never retried). -/
def askPerplexity (key : Option String) (mdl : String) (q : String)
    (style : Option Style) (minWords : Option Nat) (resp : UpstreamResponse) :
    AskResult × List PplxRequest :=
  if keyTruthy key then
    let req := mkRequest mdl (resolveSystem style minWords) q
    if resp.ok then
      (.success (getFull resp.json) ⟨resp.json.model, resp.json.usage⟩, [req])
    else
      (.upstreamError resp.status (resp.bodyText.getD ""), [req])
  else
    (.configError "Missing PERPLEXITY_API_KEY", [])

/-! ## Tool handlers (server.js lines 71-138) -/

/-- Outcome of the `answer` tool: the handler either throws (the MCP SDK
surfaces the message as a tool-level error) or returns the full text and
meta that it serializes into the raw-marked payload. -/
inductive AnswerOutcome where
  | errored : String → AnswerOutcome
  | ok : String → AskMeta → AnswerOutcome
deriving DecidableEq

/-- The message of the JS error thrown for a non-success upstream status. -/
def upstreamErrorMessage (status : Nat) (txt : String) : String :=
  "Perplexity " ++ toString status ++ ": " ++ txt

/-- The `answer` tool handler. -/
def answerTool (key : Option String) (mdl : String) (q : String)
    (style : Option Style) (minWords : Option Nat) (resp : UpstreamResponse) :
    AnswerOutcome × List PplxRequest :=
  match askPerplexity key mdl q style minWords resp with
  | (.success full m, reqs) => (.ok full m, reqs)
  | (.configError m, reqs) => (.errored m, reqs)
  | (.upstreamError st txt, reqs) => (.errored (upstreamErrorMessage st txt), reqs)

/-- One entry of the `results` list returned by `search`. -/
structure SearchResult where
  id : String
  title : String
  url : String
deriving DecidableEq

/-- The `search` tool handler: encodes the query, synthesizes title and
url, wraps the single result in a list; it contains no call to
`askPerplexity`, so its outbound-request list is empty. -/
def searchTool (q : String) : List SearchResult × List PplxRequest :=
  ([⟨b64enc q, "Perplexity: " ++ q, searchUrl q⟩], [])

/-- The document assembled by the `fetch` handler. -/
structure FetchDoc where
  id : String
  title : String
  text : String
  url : String
  metaSource : String
  metaModel : String
deriving DecidableEq

/-- Outcome of the `fetch` tool. -/
inductive FetchOutcome where
  | errored : String → FetchOutcome
  | ok : FetchDoc → FetchOutcome
deriving DecidableEq

/-- Whether a fetch outcome is a successful document. -/
def FetchOutcome.isOk : FetchOutcome → Bool
  | .ok _ => true
  | .errored _ => false

/-- The model identifier recorded in the returned document, when any. -/
def FetchOutcome.docModel : FetchOutcome → Option String
  | .ok d => some d.metaModel
  | .errored _ => none

/-- The `fetch` tool handler: decode the id (total, never a decode error),
call the gateway with default options, assemble the document whose
`metadata.model` is the statically configured model `mdl`; the upstream
`meta` is discarded. -/
def fetchTool (key : Option String) (mdl : String) (id : String)
    (resp : UpstreamResponse) : FetchOutcome × List PplxRequest :=
  let q := b64dec id
  match askPerplexity key mdl q none none resp with
  | (.success full _, reqs) =>
    (.ok ⟨id, "Perplexity: " ++ q, full, searchUrl q, "perplexity", mdl⟩, reqs)
  | (.configError m, reqs) => (.errored m, reqs)
  | (.upstreamError st txt, reqs) => (.errored (upstreamErrorMessage st txt), reqs)

/-! ## Input schemas (zod, server.js lines 76-80, 101, 123) -/

/-- A JSON value as far as the schemas can distinguish one: a string, an
integral number, a non-integral number, or anything else. -/
inductive JVal where
  | jstr : String → JVal
  | jint : Int → JVal
  | jfrac : JVal
  | jother : JVal
deriving DecidableEq

/-- `z.string()`: accepts every string, including the empty string. -/
def zodString : JVal → Option String
  | .jstr s => some s
  | _ => none

/-- The enum schema for `style`. -/
def zodStyle : JVal → Option Style
  | .jstr "short" => some .short
  | .jstr "medium" => some .medium
  | .jstr "long" => some .long
  | _ => none

/-- `z.number().int().positive()`. -/
def zodPosInt : JVal → Option Nat
  | .jint n => if 0 < n then some n.toNat else none
  | _ => none

/-- An optional field: absence is accepted as `none`; a present value must
parse. -/
def parseOptField {α : Type} (f : JVal → Option α) : Option JVal → Option (Option α)
  | none => some none
  | some v => (f v).map some

/-- The raw arguments of an `answer` call before validation. -/
structure AnswerRawInput where
  query : Option JVal
  style : Option JVal
  min_words : Option JVal
deriving DecidableEq

/-- The validated arguments of an `answer` call. -/
structure AnswerInput where
  query : String
  style : Option Style
  min_words : Option Nat
deriving DecidableEq

/-- Validation against the `answer` input schema. -/
def validateAnswer (r : AnswerRawInput) : Option AnswerInput :=
  match r.query.bind zodString, parseOptField zodStyle r.style,
      parseOptField zodPosInt r.min_words with
  | some q, some st, some mw => some ⟨q, st, mw⟩
  | _, _, _ => none

/-- Validation against the `search` input schema. -/
def validateSearch (r : Option JVal) : Option String :=
  r.bind zodString

/-- Validation against the `fetch` input schema. -/
def validateFetch (r : Option JVal) : Option String :=
  r.bind zodString

/-- The `style` field is present but fails its schema. -/
def badStyleField (r : AnswerRawInput) : Bool :=
  match r.style with
  | some v => (zodStyle v).isNone
  | none => false

/-- The `min_words` field is present but fails its schema. -/
def badMinWordsField (r : AnswerRawInput) : Bool :=
  match r.min_words with
  | some v => (zodPosInt v).isNone
  | none => false

/-- Dispatch of an `answer` call: schema validation runs before the
handler; a violation fails this call only, with no network activity. -/
def dispatchAnswer (key : Option String) (mdl : String) (r : AnswerRawInput)
    (resp : UpstreamResponse) : AnswerOutcome × List PplxRequest :=
  match validateAnswer r with
  | none => (.errored "Invalid arguments", [])
  | some a => answerTool key mdl a.query a.style a.min_words resp

/-! ## Helper lemmas: the reference codec round-trips -/

/-- Fuel does not matter once it dominates the length of the byte list. -/
theorem utf8DecodeAux_congr : ∀ (f1 f2 : Nat) (l : List Nat),
    l.length ≤ f1 → l.length ≤ f2 → utf8DecodeAux f1 l = utf8DecodeAux f2 l
  | f1, f2, [], _, _ => by cases f1 <;> cases f2 <;> rfl
  | 0, _, _ :: _, h1, _ => by simp at h1
  | _ + 1, 0, _ :: _, _, h2 => by simp at h2
  | f1 + 1, f2 + 1, b1 :: rest, h1, h2 => by
    have hr1 : rest.length ≤ f1 := by simpa using h1
    have hr2 : rest.length ≤ f2 := by simpa using h2
    rcases rest with _ | ⟨b2, _ | ⟨b3, _ | ⟨b4, rest4⟩⟩⟩ <;>
      simp only [utf8DecodeAux] <;>
      split_ifs <;>
      first
        | rfl
        | (exact congrArg _ (utf8DecodeAux_congr f1 f2 _
            (by try simp only [List.length_cons] at hr1 hr2 ⊢
                omega)
            (by try simp only [List.length_cons] at hr1 hr2 ⊢
                omega)))

/-- Decoding an ASCII byte. -/
theorem utf8Decode_ascii (b : Nat) (t : List Nat) (h : b < 0x80) :
    utf8Decode (b :: t) = Char.ofNat b :: utf8Decode t := by
  simp only [utf8Decode, List.length_cons, utf8DecodeAux]
  rw [if_pos h]

/-- Decoding a well-formed two-byte sequence. -/
theorem utf8Decode_two (b1 b2 : Nat) (t : List Nat)
    (h1 : 0xC2 ≤ b1 ∧ b1 ≤ 0xDF) (h2 : 0x80 ≤ b2 ∧ b2 ≤ 0xBF) :
    utf8Decode (b1 :: b2 :: t) =
      Char.ofNat ((b1 - 0xC0) * 64 + (b2 - 0x80)) :: utf8Decode t := by
  simp only [utf8Decode, List.length_cons, utf8DecodeAux]
  rw [if_neg (by omega), if_pos h1, if_pos h2,
    utf8DecodeAux_congr (t.length + 1) t.length t (by omega) (le_refl _)]

/-- Decoding a well-formed three-byte sequence. -/
theorem utf8Decode_three (b1 b2 b3 : Nat) (t : List Nat)
    (h1 : 0xE0 ≤ b1 ∧ b1 ≤ 0xEF)
    (h2 : (0x80 ≤ b2 ∧ b2 ≤ 0xBF ∧ 0x80 ≤ b3 ∧ b3 ≤ 0xBF) ∧
      ¬(b1 = 0xE0 ∧ b2 < 0xA0) ∧ ¬(b1 = 0xED ∧ 0xA0 ≤ b2)) :
    utf8Decode (b1 :: b2 :: b3 :: t) =
      Char.ofNat ((b1 - 0xE0) * 4096 + (b2 - 0x80) * 64 + (b3 - 0x80)) :: utf8Decode t := by
  simp only [utf8Decode, List.length_cons, utf8DecodeAux]
  rw [if_neg (by omega), if_neg (by omega), if_pos h1, if_pos h2,
    utf8DecodeAux_congr (t.length + 2) t.length t (by omega) (le_refl _)]

/-- Decoding a well-formed four-byte sequence. -/
theorem utf8Decode_four (b1 b2 b3 b4 : Nat) (t : List Nat)
    (h1 : 0xF0 ≤ b1 ∧ b1 ≤ 0xF4)
    (h2 : (0x80 ≤ b2 ∧ b2 ≤ 0xBF ∧ 0x80 ≤ b3 ∧ b3 ≤ 0xBF ∧ 0x80 ≤ b4 ∧ b4 ≤ 0xBF) ∧
      ¬(b1 = 0xF0 ∧ b2 < 0x90) ∧ ¬(b1 = 0xF4 ∧ 0x90 ≤ b2)) :
    utf8Decode (b1 :: b2 :: b3 :: b4 :: t) =
      Char.ofNat ((b1 - 0xF0) * 262144 + (b2 - 0x80) * 4096 + (b3 - 0x80) * 64 + (b4 - 0x80))
        :: utf8Decode t := by
  simp only [utf8Decode, List.length_cons, utf8DecodeAux]
  rw [if_neg (by omega), if_neg (by omega), if_neg (by omega), if_pos h1, if_pos h2,
    utf8DecodeAux_congr (t.length + 3) t.length t (by omega) (le_refl _)]

/-- A character of a Lean string is a Unicode scalar value: below the
surrogate range or strictly between it and 0x110000. -/
theorem char_scalar_valid (c : Char) :
    c.toNat < 0xd800 ∨ (0xdfff < c.toNat ∧ c.toNat < 0x110000) := c.valid

/-- Decoding the UTF-8 encoding of one scalar value recovers it, whatever
follows. -/
theorem utf8Decode_encodeChar (c : Char) (t : List Nat) :
    utf8Decode (utf8EncodeChar c.toNat ++ t) = c :: utf8Decode t := by
  have hv := char_scalar_valid c
  by_cases ha : c.toNat < 0x80
  · rw [utf8EncodeChar, if_pos ha]
    simp only [List.cons_append, List.nil_append]
    rw [utf8Decode_ascii _ _ ha, Char.ofNat_toNat]
  · by_cases hb : c.toNat < 0x800
    · rw [utf8EncodeChar, if_neg ha, if_pos hb]
      simp only [List.cons_append, List.nil_append]
      rw [utf8Decode_two _ _ _ (by omega) (by omega)]
      have h : (0xC0 + c.toNat / 64 - 0xC0) * 64 + (0x80 + c.toNat % 64 - 0x80) = c.toNat := by
        omega
      rw [h, Char.ofNat_toNat]
    · by_cases hc : c.toNat < 0x10000
      · rw [utf8EncodeChar, if_neg ha, if_neg hb, if_pos hc]
        simp only [List.cons_append, List.nil_append]
        rw [utf8Decode_three _ _ _ _ (by omega) (by omega)]
        have h : (0xE0 + c.toNat / 4096 - 0xE0) * 4096 +
            (0x80 + c.toNat / 64 % 64 - 0x80) * 64 + (0x80 + c.toNat % 64 - 0x80) = c.toNat := by
          omega
        rw [h, Char.ofNat_toNat]
      · rw [utf8EncodeChar, if_neg ha, if_neg hb, if_neg hc]
        simp only [List.cons_append, List.nil_append]
        rw [utf8Decode_four _ _ _ _ _ (by omega) (by omega)]
        have h : (0xF0 + c.toNat / 262144 - 0xF0) * 262144 +
            (0x80 + c.toNat / 4096 % 64 - 0x80) * 4096 +
            (0x80 + c.toNat / 64 % 64 - 0x80) * 64 + (0x80 + c.toNat % 64 - 0x80) = c.toNat := by
          omega
        rw [h, Char.ofNat_toNat]

/-- UTF-8 decode is a left inverse of UTF-8 encode. -/
theorem utf8Decode_utf8Encode : ∀ cs : List Char, utf8Decode (utf8Encode cs) = cs
  | [] => rfl
  | c :: cs => by
    rw [utf8Encode, utf8Decode_encodeChar, utf8Decode_utf8Encode cs]

/-- The UTF-8 encoding of one scalar value consists of bytes. -/
theorem utf8EncodeChar_lt (c : Char) : ∀ b ∈ utf8EncodeChar c.toNat, b < 256 := by
  have hv := char_scalar_valid c
  intro b hb
  rw [utf8EncodeChar] at hb
  split_ifs at hb <;> simp only [List.mem_cons, List.not_mem_nil, or_false] at hb <;> omega

/-- The UTF-8 encoding of a character sequence consists of bytes. -/
theorem utf8Encode_lt : ∀ cs : List Char, ∀ b ∈ utf8Encode cs, b < 256
  | [] => by simp [utf8Encode]
  | c :: cs => by
    intro b hb
    rw [utf8Encode, List.mem_append] at hb
    rcases hb with hb | hb
    · exact utf8EncodeChar_lt c b hb
    · exact utf8Encode_lt cs b hb

/-- The alphabet map and its partial inverse agree on sextets. -/
theorem sextetOfChar_charOfSextet : ∀ s, s < 64 → sextetOfChar (charOfSextet s) = some s := by
  decide

/-- The lenient filter keeps exactly the encoded sextets. -/
theorem sextetsOfChars_map_charOfSextet :
    ∀ l : List Nat, (∀ s ∈ l, s < 64) → sextetsOfChars (l.map charOfSextet) = l
  | [], _ => rfl
  | s :: t, h => by
    have hs := h s (by simp)
    have ht := sextetsOfChars_map_charOfSextet t (fun x hx => h x (by simp [hx]))
    simp only [List.map_cons, sextetsOfChars, sextetOfChar_charOfSextet s hs, ht]

/-- Encoding bytes yields sextets. -/
theorem bytesToSextets_lt :
    ∀ bs : List Nat, (∀ b ∈ bs, b < 256) → ∀ s ∈ bytesToSextets bs, s < 64
  | [], _, s, hs => by simp [bytesToSextets] at hs
  | [b1], h, s, hs => by
    have h1 := h b1 (by simp)
    simp [bytesToSextets] at hs
    rcases hs with h' | h' <;> omega
  | [b1, b2], h, s, hs => by
    have h1 := h b1 (by simp)
    have h2 := h b2 (by simp)
    simp [bytesToSextets] at hs
    rcases hs with h' | h' | h' <;> omega
  | b1 :: b2 :: b3 :: rest, h, s, hs => by
    have h1 := h b1 (by simp)
    have h2 := h b2 (by simp)
    have h3 := h b3 (by simp)
    simp only [bytesToSextets, List.mem_cons] at hs
    rcases hs with h' | h' | h' | h' | h'
    · omega
    · omega
    · omega
    · omega
    · exact bytesToSextets_lt rest (fun x hx => h x (by simp [hx])) s h'

/-- Ungrouping the grouped sextets recovers the bytes. -/
theorem sextetsToBytes_bytesToSextets :
    ∀ bs : List Nat, (∀ b ∈ bs, b < 256) → sextetsToBytes (bytesToSextets bs) = bs
  | [], _ => rfl
  | [b1], h => by
    have h1 := h b1 (by simp)
    simp [bytesToSextets, sextetsToBytes]
    omega
  | [b1, b2], h => by
    have h1 := h b1 (by simp)
    have h2 := h b2 (by simp)
    simp [bytesToSextets, sextetsToBytes]
    constructor <;> omega
  | b1 :: b2 :: b3 :: rest, h => by
    have h1 := h b1 (by simp)
    have h2 := h b2 (by simp)
    have h3 := h b3 (by simp)
    have ih := sextetsToBytes_bytesToSextets rest (fun x hx => h x (by simp [hx]))
    simp only [bytesToSextets, sextetsToBytes, ih, List.cons.injEq, and_true]
    refine ⟨by omega, by omega, by omega⟩

/-! ## Helper lemmas: gateway and schemas -/

/-- A malformed successful payload normalizes to the empty answer text. -/
theorem getFull_of_malformed (j : PplxJson) (h : malformedPayload j = true) :
    getFull j = "" := by
  rcases j with ⟨ch, m, u⟩
  rcases ch with _ | cs
  · rfl
  · rcases cs with _ | ⟨c, cs2⟩
    · rfl
    · rcases c with ⟨mc, tc⟩
      simp only [malformedPayload, List.head?, Option.isNone_iff_eq_none, Bool.and_eq_true] at h
      rcases h with ⟨hmc, htc⟩
      simp only [getFull, List.head?, hmc, htc]

/-- A bad `style` or `min_words` field fails the whole schema validation. -/
theorem validateAnswer_none_of_bad (r : AnswerRawInput)
    (h : badStyleField r = true ∨ badMinWordsField r = true) : validateAnswer r = none := by
  rcases r with ⟨qv, sv, mv⟩
  rw [validateAnswer]
  rcases h with h | h
  · rcases sv with _ | v
    · simp [badStyleField] at h
    · have hp : parseOptField zodStyle (some v) = none := by
        have hz : zodStyle v = none := by
          simpa [badStyleField, Option.isNone_iff_eq_none] using h
        simp [parseOptField, hz]
      rw [hp]
      cases qv.bind zodString <;> cases parseOptField zodPosInt mv <;> rfl
  · rcases mv with _ | v
    · simp [badMinWordsField] at h
    · have hp : parseOptField zodPosInt (some v) = none := by
        have hz : zodPosInt v = none := by
          simpa [badMinWordsField, Option.isNone_iff_eq_none] using h
        simp [parseOptField, hz]
      rw [hp]
      cases qv.bind zodString <;> cases parseOptField zodStyle sv <;> rfl

/-! ## Claim theorems -/

/-- C1: for every non-empty UTF-8 query string `q`, decoding the reference
produced by encoding `q` returns `q` unchanged: `b64dec (b64enc q) = q`,
where `b64enc` is the base64url encoder used by `search` and `b64dec` the
base64url decoder used by `fetch`. -/
theorem decode_encode_roundtrip (q : String) (h : q ≠ "") : b64dec (b64enc q) = q := by
  have hdata : (b64enc q).data = (bytesToSextets (utf8Encode q.data)).map charOfSextet := rfl
  rw [b64dec, hdata,
    sextetsOfChars_map_charOfSextet (bytesToSextets (utf8Encode q.data))
      (bytesToSextets_lt (utf8Encode q.data) (utf8Encode_lt q.data)),
    sextetsToBytes_bytesToSextets (utf8Encode q.data) (utf8Encode_lt q.data),
    utf8Decode_utf8Encode]

/-- Witness for C1 at the concrete query "cats". -/
theorem decode_encode_roundtrip_witness :
    "cats" ≠ "" ∧ b64dec (b64enc "cats") = "cats" :=
  ⟨by decide, decode_encode_roundtrip "cats" (by decide)⟩

/-- C2 counterexample: the claim says `fetch("not-valid-base64!!")` yields a
`DecodeError`; instead the decode step never fails — on this very input the
fetch handler succeeds and issues one upstream call. -/
theorem fetch_malformed_id_no_error :
    (fetchTool (some "key") "sonar-pro" "not-valid-base64!!"
      ⟨true, 200, some "", ⟨some [⟨some "hello", none⟩], some "sonar-pro", none⟩⟩).1.isOk
      = true ∧
    (fetchTool (some "key") "sonar-pro" "not-valid-base64!!"
      ⟨true, 200, some "", ⟨some [⟨some "hello", none⟩], some "sonar-pro", none⟩⟩).2.length
      = 1 := by
  constructor <;> rfl

/-- C2 amended: the fetch tool's decode step never fails, for malformed
inputs included: with a configured credential, the handler always proceeds
past decoding, issues exactly one upstream call, and errors only when the
upstream response itself has a non-success status. -/
theorem fetch_never_decode_error (k mdl id : String) (resp : UpstreamResponse) (hk : k ≠ "") :
    (fetchTool (some k) mdl id resp).1.isOk = resp.ok ∧
    (fetchTool (some k) mdl id resp).2.length = 1 := by
  rcases resp with ⟨ok, st, bt, j⟩
  cases ok <;>
    simp [fetchTool, askPerplexity, keyTruthy, hk, FetchOutcome.isOk]

/-- Witness for the amended C2 at a concrete input. -/
theorem fetch_never_decode_error_witness :
    ("key" : String) ≠ "" ∧
    ((fetchTool (some "key") "m" "x" ⟨true, 200, some "", ⟨none, none, none⟩⟩).1.isOk
        = (⟨true, 200, some "", ⟨none, none, none⟩⟩ : UpstreamResponse).ok ∧
      (fetchTool (some "key") "m" "x" ⟨true, 200, some "", ⟨none, none, none⟩⟩).2.length = 1) :=
  ⟨by decide, fetch_never_decode_error "key" "m" "x" ⟨true, 200, some "", ⟨none, none, none⟩⟩
    (by decide)⟩

/-- C3 counterexample: the claim says that with `style` absent and
`min_words` present the target is `min_words` alone and the instruction
directs the model to write around that many words; in the code the ternary
chain yields `undefined` for an absent `style`, so `resolveSystem none
(some 500)` is the unmodified default instruction, not the 500-word one. -/
theorem minwords_without_style_ignored :
    resolveSystem none (some 500) = defaultSystem ∧ defaultSystem ≠ styledSystem 500 := by
  constructor
  · rfl
  · decide

/-- C3 amended: if `style` is absent the default instruction is used even
when `min_words` is present; if `style` is given, the target is
`max(floorForStyle(style), minWords ?? 0)` with short→60, medium→160,
long→300, and the instruction directs around that many words. -/
theorem resolveSystem_policy (st : Option Style) (mw : Option Nat) :
    resolveSystem st mw =
      match st with
      | none => defaultSystem
      | some .short => styledSystem (max 60 (mw.getD 0))
      | some .medium => styledSystem (max 160 (mw.getD 0))
      | some .long => styledSystem (max 300 (mw.getD 0)) := by
  rcases st with _ | s
  · rw [resolveSystem]
    split_ifs <;> rfl
  · cases s <;> rfl

/-- C4: with the upstream credential absent, both the `answer` and the
`fetch` tools fail with the configuration error before any outbound
network call is attempted (their request lists are empty), as a tool-level
error rather than a crash. -/
theorem missing_key_config_error (mdl q id : String) (st : Option Style) (mw : Option Nat)
    (resp : UpstreamResponse) :
    answerTool none mdl q st mw resp = (.errored "Missing PERPLEXITY_API_KEY", []) ∧
    fetchTool none mdl id resp = (.errored "Missing PERPLEXITY_API_KEY", []) :=
  ⟨rfl, rfl⟩

/-- C5: a non-success upstream status fails the gateway call with an
upstream error carrying the status code and the best-effort body text
(a failed body read is swallowed and replaced by the empty string), the
error propagates to the calling tool, and exactly one request was issued
(no retry). -/
theorem upstream_error_propagation (k mdl q : String) (st : Option Style) (mw : Option Nat)
    (resp : UpstreamResponse) (hk : k ≠ "") (hok : resp.ok = false) :
    askPerplexity (some k) mdl q st mw resp =
      (.upstreamError resp.status (resp.bodyText.getD ""),
        [mkRequest mdl (resolveSystem st mw) q]) ∧
    answerTool (some k) mdl q st mw resp =
      (.errored (upstreamErrorMessage resp.status (resp.bodyText.getD "")),
        [mkRequest mdl (resolveSystem st mw) q]) := by
  have h1 : askPerplexity (some k) mdl q st mw resp =
      (.upstreamError resp.status (resp.bodyText.getD ""),
        [mkRequest mdl (resolveSystem st mw) q]) := by
    simp [askPerplexity, keyTruthy, hk, hok]
  exact ⟨h1, by simp [answerTool, h1]⟩

/-- Witness for C5 at a concrete 500-status response whose body read
failed. -/
theorem upstream_error_propagation_witness :
    (("key" : String) ≠ "" ∧
      (⟨false, 500, none, ⟨none, none, none⟩⟩ : UpstreamResponse).ok = false) ∧
    (askPerplexity (some "key") "m" "x" none none ⟨false, 500, none, ⟨none, none, none⟩⟩ =
      (.upstreamError 500 "", [mkRequest "m" (resolveSystem none none) "x"]) ∧
    answerTool (some "key") "m" "x" none none ⟨false, 500, none, ⟨none, none, none⟩⟩ =
      (.errored (upstreamErrorMessage 500 ""), [mkRequest "m" (resolveSystem none none) "x"])) :=
  ⟨⟨by decide, rfl⟩,
    upstream_error_propagation "key" "m" "x" none none
      ⟨false, 500, none, ⟨none, none, none⟩⟩ (by decide) rfl⟩

/-- C6: a successful-status response whose payload is malformed or empty
(missing choices, empty choices, or a first choice without content and
text) makes the gateway return the empty-string answer rather than fail
the call. -/
theorem malformed_payload_empty_answer (k mdl q : String) (st : Option Style) (mw : Option Nat)
    (resp : UpstreamResponse) (hk : k ≠ "") (hok : resp.ok = true)
    (hm : malformedPayload resp.json = true) :
    askPerplexity (some k) mdl q st mw resp =
      (.success "" ⟨resp.json.model, resp.json.usage⟩,
        [mkRequest mdl (resolveSystem st mw) q]) := by
  simp [askPerplexity, keyTruthy, hk, hok, getFull_of_malformed resp.json hm]

/-- Witness for C6 at a concrete payload with no `choices` at all. -/
theorem malformed_payload_empty_answer_witness :
    (("key" : String) ≠ "" ∧
      (⟨true, 200, some "", ⟨none, none, none⟩⟩ : UpstreamResponse).ok = true ∧
      malformedPayload (⟨true, 200, some "", ⟨none, none, none⟩⟩ : UpstreamResponse).json
        = true) ∧
    askPerplexity (some "key") "m" "x" none none ⟨true, 200, some "", ⟨none, none, none⟩⟩ =
      (.success "" ⟨none, none⟩, [mkRequest "m" (resolveSystem none none) "x"]) :=
  ⟨⟨by decide, rfl, rfl⟩,
    malformed_payload_empty_answer "key" "m" "x" none none
      ⟨true, 200, some "", ⟨none, none, none⟩⟩ (by decide) rfl rfl⟩

/-- C7: for every query, the search tool returns a result list of length
exactly one, whose single entry carries the base64url encoding of the
query as its reference plus the title and url derived from the query, and
the search handler issues no upstream request. -/
theorem search_single_result (q : String) :
    (searchTool q).1 = [⟨b64enc q, "Perplexity: " ++ q, searchUrl q⟩] ∧
    (searchTool q).1.length = 1 ∧ (searchTool q).2 = [] :=
  ⟨rfl, rfl, rfl⟩

/-- C8 counterexample: the claim says an empty-string query or reference is
rejected by input validation; the schemas are plain `z.string()`, so the
empty string passes validation for all three tools. -/
theorem empty_string_inputs_accepted :
    validateAnswer ⟨some (.jstr ""), none, none⟩ = some ⟨"", none, none⟩ ∧
    validateSearch (some (.jstr "")) = some "" ∧
    validateFetch (some (.jstr "")) = some "" :=
  ⟨rfl, rfl, rfl⟩

/-- C8 amended: input validation rejects, with a schema-validation error
before any network call and scoped to the single tool call, any input
whose `style` is outside the enumerated set or whose `min_words` is
present but not a positive integer; empty-string query and reference,
however, are accepted, not rejected. -/
theorem schema_rejects_bad_style_minwords (key : Option String) (mdl : String)
    (r : AnswerRawInput) (resp : UpstreamResponse)
    (h : badStyleField r = true ∨ badMinWordsField r = true) :
    dispatchAnswer key mdl r resp = (.errored "Invalid arguments", []) := by
  rw [dispatchAnswer, validateAnswer_none_of_bad r h]

/-- Witness for the amended C8 at a concrete out-of-enum style value. -/
theorem schema_rejects_bad_style_minwords_witness :
    (badStyleField ⟨some (.jstr "q"), some (.jstr "huge"), none⟩ = true ∨
      badMinWordsField ⟨some (.jstr "q"), some (.jstr "huge"), none⟩ = true) ∧
    dispatchAnswer (some "key") "m" ⟨some (.jstr "q"), some (.jstr "huge"), none⟩
      ⟨true, 200, some "", ⟨none, none, none⟩⟩ = (.errored "Invalid arguments", []) :=
  ⟨Or.inl rfl,
    schema_rejects_bad_style_minwords (some "key") "m"
      ⟨some (.jstr "q"), some (.jstr "huge"), none⟩
      ⟨true, 200, some "", ⟨none, none, none⟩⟩ (Or.inl rfl)⟩

/-- C9: the decode used by fetch is total — for every string id, with a
configured credential, the fetch handler always proceeds to issue exactly
one upstream call whose user message is the (possibly garbage) decoded
query `b64dec id`, whatever the upstream response. -/
theorem fetch_always_calls_upstream (k mdl id : String) (resp : UpstreamResponse) (hk : k ≠ "") :
    (fetchTool (some k) mdl id resp).2 = [mkRequest mdl defaultSystem (b64dec id)] := by
  rcases resp with ⟨ok, st, bt, j⟩
  cases ok <;> simp [fetchTool, askPerplexity, keyTruthy, hk, resolveSystem]

/-- Witness for C9 at a malformed id and a failing upstream response. -/
theorem fetch_always_calls_upstream_witness :
    ("key" : String) ≠ "" ∧
    (fetchTool (some "key") "m" "not-valid-base64!!"
        ⟨false, 500, none, ⟨none, none, none⟩⟩).2 =
      [mkRequest "m" defaultSystem (b64dec "not-valid-base64!!")] :=
  ⟨by decide,
    fetch_always_calls_upstream "key" "m" "not-valid-base64!!"
      ⟨false, 500, none, ⟨none, none, none⟩⟩ (by decide)⟩

/-- C10: for every successful fetch, the returned document's
`metadata.model` is the statically configured model identifier, not the
model reported in the upstream payload, whose `meta` object fetch
discards. -/
theorem fetch_doc_model_is_config (k mdl id : String) (resp : UpstreamResponse)
    (hk : k ≠ "") (hok : resp.ok = true) :
    (fetchTool (some k) mdl id resp).1 =
      .ok ⟨id, "Perplexity: " ++ b64dec id, getFull resp.json, searchUrl (b64dec id),
        "perplexity", mdl⟩ ∧
    (fetchTool (some k) mdl id resp).1.docModel = some mdl := by
  have h1 : (fetchTool (some k) mdl id resp).1 =
      .ok ⟨id, "Perplexity: " ++ b64dec id, getFull resp.json, searchUrl (b64dec id),
        "perplexity", mdl⟩ := by
    simp [fetchTool, askPerplexity, keyTruthy, hk, hok]
  exact ⟨h1, by rw [h1]; rfl⟩

/-- Witness for C10: the upstream payload reports a different model name,
yet the document records the configured one. -/
theorem fetch_doc_model_is_config_witness :
    (("key" : String) ≠ "" ∧
      (⟨true, 200, some "", ⟨none, some "upstream-model", none⟩⟩ : UpstreamResponse).ok
        = true) ∧
    ((fetchTool (some "key") "sonar-pro" "Y2F0cw"
        ⟨true, 200, some "", ⟨none, some "upstream-model", none⟩⟩).1 =
      .ok ⟨"Y2F0cw", "Perplexity: " ++ b64dec "Y2F0cw",
        getFull (⟨none, some "upstream-model", none⟩ : PplxJson),
        searchUrl (b64dec "Y2F0cw"), "perplexity", "sonar-pro"⟩ ∧
    (fetchTool (some "key") "sonar-pro" "Y2F0cw"
        ⟨true, 200, some "", ⟨none, some "upstream-model", none⟩⟩).1.docModel
      = some "sonar-pro") :=
  ⟨⟨by decide, rfl⟩,
    fetch_doc_model_is_config "key" "sonar-pro" "Y2F0cw"
      ⟨true, 200, some "", ⟨none, some "upstream-model", none⟩⟩ (by decide) rfl⟩
